import Mathlib

/-
  Shallow embedding of the uno-engine-py core (src/uno/engine/card.py,
  src/uno/engine/deck.py, src/uno/player/player.py) and proofs checking the
  natural-language specification against it.

  Python integer enums are modelled as inductives with an explicit `val`
  giving the IntEnum integer value; Python truthiness of an enum member
  (`bool(member)` is `member.value != 0`) is modelled explicitly, because
  `card.py` relies on it in `can_play_on` (`current_color or other.color`)
  and in `play` (`if self.is_wild and new_color`).  Methods that can raise
  return `Except String`; mutating methods return the updated record.
-/

namespace Uno

/-- Card colors, mirroring the `CardColor` IntEnum. -/
inductive CardColor where
  | RED
  | BLUE
  | GREEN
  | YELLOW
  | WILD
deriving DecidableEq, Repr

/-- Integer value of a `CardColor`, as in the Python IntEnum. -/
def CardColor.val : CardColor → Nat
  | .RED => 0
  | .BLUE => 1
  | .GREEN => 2
  | .YELLOW => 3
  | .WILD => 4

/-- Python truthiness of a `CardColor` member: `bool(c)` is `c.value != 0`. -/
def CardColor.toBool (c : CardColor) : Bool := c.val != 0

/-- Python truthiness of an `Optional[CardColor]`: `None` is falsy, a member
is truthy iff its integer value is nonzero (so `RED` is falsy). -/
def optColorTruthy : Option CardColor → Bool
  | none => false
  | some c => c.toBool

/-- Python `x or y` for `x : Optional[CardColor]`, `y : CardColor`: returns
`x` when `x` is truthy, else `y`. -/
def pyColorOr (x : Option CardColor) (y : CardColor) : CardColor :=
  match x with
  | none => y
  | some c => if c.toBool then c else y

/-- Card labels, mirroring the `CardLabel` IntEnum. -/
inductive CardLabel where
  | ZERO
  | ONE
  | TWO
  | THREE
  | FOUR
  | FIVE
  | SIX
  | SEVEN
  | EIGHT
  | NINE
  | SKIP
  | REVERSE
  | DRAW_TWO
  | WILD
  | WILD_DRAW_FOUR
deriving DecidableEq, Repr

/-- A card: a color and a label, as in `Card.__init__`.  Equality is by
`(color, label)`, matching `Card.__eq__`. -/
structure Card where
  color : CardColor
  label : CardLabel
deriving DecidableEq, Repr

/-- `Card.is_wild`: the label is in `WILD_CARDS = {WILD, WILD_DRAW_FOUR}`. -/
def Card.is_wild (c : Card) : Bool :=
  c.label == CardLabel.WILD || c.label == CardLabel.WILD_DRAW_FOUR

/-- `Card.can_play_on(self, other, current_color)`: wilds are always legal;
then a color match against `current_color or other.color` (Python `or`, so a
falsy `current_color` — `None` or `RED` — falls through to `other.color`);
then a label match provided the top card is not wild. -/
def Card.can_play_on (c : Card) (other : Card) (current_color : Option CardColor) : Bool :=
  if c.is_wild then true
  else if c.color == pyColorOr current_color other.color then true
  else if c.label == other.label && !other.is_wild then true
  else false

/-- The effects dictionary returned by `Card.play`. -/
structure PlayEffects where
  color_change : Option CardColor
  draw_cards : Nat
  skip_turn : Bool
  reverse : Bool
deriving DecidableEq, Repr

/-- The label-dispatch part of `Card.play`: draw two / wild draw four / skip
/ reverse set their field, every other label leaves the effects untouched. -/
def Card.labelEffects (c : Card) (cc : Option CardColor) : PlayEffects :=
  if c.label == CardLabel.DRAW_TWO then ⟨cc, 2, false, false⟩
  else if c.label == CardLabel.WILD_DRAW_FOUR then ⟨cc, 4, false, false⟩
  else if c.label == CardLabel.SKIP then ⟨cc, 0, true, false⟩
  else if c.label == CardLabel.REVERSE then ⟨cc, 0, false, true⟩
  else ⟨cc, 0, false, false⟩

/-- `Card.play(self, new_color)`: the color block runs under the Python test
`if self.is_wild and new_color:` (truthiness of `new_color`), raising when
`new_color == CardColor.WILD`, then the label dispatch fills the counts. -/
def Card.play (c : Card) (new_color : Option CardColor) : Except String PlayEffects :=
  if c.is_wild && optColorTruthy new_color then
    if new_color == some CardColor.WILD then
      Except.error "Cannot change to WILD color"
    else
      Except.ok (c.labelEffects new_color)
  else
    Except.ok (c.labelEffects none)

/-- Effect state machine states, mirroring the `EffectState` IntEnum. -/
inductive EffectState where
  | NO_EFFECT
  | PENDING
  | APPLIED
  | RESOLVED
deriving DecidableEq, Repr

/-- Integer value of an `EffectState`, as in the Python IntEnum. -/
def EffectState.val : EffectState → Nat
  | .NO_EFFECT => 0
  | .PENDING => 1
  | .APPLIED => 2
  | .RESOLVED => 3

/-- The `CardEffect` object: a state plus the effect fields. -/
structure CardEffect where
  state : EffectState
  color_change : Option CardColor
  draw_count : Nat
  skip_count : Nat
  reverse_direction : Bool
  stackable : Bool
deriving DecidableEq, Repr

/-- `CardEffect.set_pending`: moves to PENDING only from NO_EFFECT. -/
def CardEffect.set_pending (e : CardEffect) : CardEffect :=
  if e.state = EffectState.NO_EFFECT then { e with state := EffectState.PENDING } else e

/-- `CardEffect.set_applied`: moves to APPLIED only from PENDING. -/
def CardEffect.set_applied (e : CardEffect) : CardEffect :=
  if e.state = EffectState.PENDING then { e with state := EffectState.APPLIED } else e

/-- `CardEffect.set_resolved`: moves to RESOLVED only from APPLIED. -/
def CardEffect.set_resolved (e : CardEffect) : CardEffect :=
  if e.state = EffectState.APPLIED then { e with state := EffectState.RESOLVED } else e

/-- The `color_change` property setter: raises on a literal WILD color,
otherwise calls `set_pending` (only for a non-None color) and assigns. -/
def CardEffect.color_change_set (e : CardEffect) (color : Option CardColor) :
    Except String CardEffect :=
  match color with
  | some c =>
      if c = CardColor.WILD then Except.error "Cannot change to WILD color"
      else Except.ok { e.set_pending with color_change := some c }
  | none => Except.ok { e with color_change := none }

/-- The `draw_count` property setter: raises on a negative count, calls
`set_pending` when the count is positive, assigns the count. -/
def CardEffect.draw_count_set (e : CardEffect) (count : Int) : Except String CardEffect :=
  if count < 0 then Except.error "draw_count must be a non-negative integer"
  else if 0 < count then Except.ok { e.set_pending with draw_count := count.toNat }
  else Except.ok { e with draw_count := count.toNat }

/-- The `skip_count` property setter: raises on a negative count, calls
`set_pending` when the count is positive, assigns the count. -/
def CardEffect.skip_count_set (e : CardEffect) (count : Int) : Except String CardEffect :=
  if count < 0 then Except.error "skip_count must be a non-negative integer"
  else if 0 < count then Except.ok { e.set_pending with skip_count := count.toNat }
  else Except.ok { e with skip_count := count.toNat }

/-- The `reverse_direction` property setter: calls `set_pending` when the
assigned value is `True`, then assigns. -/
def CardEffect.reverse_direction_set (e : CardEffect) (reverse : Bool) : CardEffect :=
  if reverse then { e.set_pending with reverse_direction := reverse }
  else { e with reverse_direction := reverse }

/-- The `stackable` property setter: plain assignment, no state transition. -/
def CardEffect.stackable_set (e : CardEffect) (s : Bool) : CardEffect :=
  { e with stackable := s }

mutual

/-- Fuel-bounded unfolding of `CardEffect.reset_state`, which sets the state
to NO_EFFECT and then calls `clear_effects`.  In the source the two methods
call each other unconditionally, so the recursion is modelled with explicit
fuel; `none` means the fuel ran out before either method returned. -/
def CardEffect.reset_state_fuel : Nat → CardEffect → Option CardEffect
  | 0, _ => none
  | Nat.succ n, e =>
      CardEffect.clear_effects_fuel n { e with state := EffectState.NO_EFFECT }

/-- Fuel-bounded unfolding of `CardEffect.clear_effects`, which zeroes all
effect fields and then calls `reset_state`. -/
def CardEffect.clear_effects_fuel : Nat → CardEffect → Option CardEffect
  | 0, _ => none
  | Nat.succ n, e =>
      CardEffect.reset_state_fuel n
        { e with color_change := none, draw_count := 0, skip_count := 0,
                 reverse_direction := false, stackable := false }

end

/-- `CardEffect.execute_draw`: pays out and zeroes the draw count only while
APPLIED with a positive count; otherwise returns 0 and changes nothing. -/
def CardEffect.execute_draw (e : CardEffect) : Nat × CardEffect :=
  if e.state = EffectState.APPLIED ∧ 0 < e.draw_count then
    (e.draw_count, { e with draw_count := 0 })
  else (0, e)

/-- `CardEffect.execute_skip`: pays out and zeroes the skip count only while
APPLIED with a positive count; otherwise returns 0 and changes nothing. -/
def CardEffect.execute_skip (e : CardEffect) : Nat × CardEffect :=
  if e.state = EffectState.APPLIED ∧ 0 < e.skip_count then
    (e.skip_count, { e with skip_count := 0 })
  else (0, e)

/-- `CardEffect.combine(self, other)`: step for step as in the source —
`set_pending` when the other state is not NO_EFFECT, overwrite of
`color_change` when the other has one (through the property setter), additive
draw and skip counts (through the setters), OR of the reverse and stackable
flags.  An exception raised by a setter propagates, leaving the remaining
steps unexecuted. -/
def CardEffect.combine (a other : CardEffect) : Except String CardEffect :=
  let a1 := if other.state ≠ EffectState.NO_EFFECT then a.set_pending else a
  match (match other.color_change with
         | some c => a1.color_change_set (some c)
         | none => Except.ok a1) with
  | Except.error msg => Except.error msg
  | Except.ok a2 =>
    match a2.draw_count_set ((a2.draw_count : Int) + (other.draw_count : Int)) with
    | Except.error msg => Except.error msg
    | Except.ok a3 =>
      match a3.skip_count_set ((a3.skip_count : Int) + (other.skip_count : Int)) with
      | Except.error msg => Except.error msg
      | Except.ok a4 =>
        let a5 := if other.reverse_direction then a4.reverse_direction_set true else a4
        let a6 := if other.stackable then a5.stackable_set true else a5
        Except.ok a6

/-- State of an `Except`-valued effect operation, `none` on the raising path. -/
def exceptState (x : Except String CardEffect) : Option EffectState :=
  match x with
  | Except.ok e => some e.state
  | Except.error _ => none

/-- Numeric state of an `Except`-valued effect operation; on the raising path
the Python object is left unchanged, so the prior state value is returned. -/
def exceptStateVal (x : Except String CardEffect) (dflt : Nat) : Nat :=
  match x with
  | Except.ok e => e.state.val
  | Except.error _ => dflt

/-- Whether an `Except`-valued effect operation returned normally. -/
def isOkEffect (x : Except String CardEffect) : Bool :=
  match x with
  | Except.ok _ => true
  | Except.error _ => false

/-- Field of the result of an `Except`-valued effect operation, with a
default for the raising path. -/
def okField {α : Type} (x : Except String CardEffect) (f : CardEffect → α) (d : α) : α :=
  match x with
  | Except.ok e => f e
  | Except.error _ => d

/-- Numeric value of the effect state, as a projection of the effect. -/
def CardEffect.stateVal (e : CardEffect) : Nat := e.state.val

/-- Result of `Deck.draw`: the Python method returns `None` on an empty deck,
raises `ValueError` on a negative or oversized count, and otherwise pops the
first `count` cards from the head. -/
inductive DrawResult where
  | nothing
  | failure (msg : String)
  | drawn (cards : List Card) (rest : List Card)
deriving DecidableEq, Repr

/-- `Deck.draw(self, count)`: the deck is the card deque, head first.  The
empty-deck check comes first and returns `None`; then the negative and
oversized checks raise; then the first `count` cards are popped in order. -/
def Deck.draw (deck : List Card) (count : Int) : DrawResult :=
  if deck.length = 0 then DrawResult.nothing
  else if count < 0 then DrawResult.failure "Cannot draw negative number of cards"
  else if (deck.length : Int) < count then DrawResult.failure "Cannot draw more cards than the deck holds"
  else DrawResult.drawn (deck.take count.toNat) (deck.drop count.toNat)

/-- `Deck.add_cards_to_top(self, cards)`: `appendleft` each card, iterating
the input in reverse. -/
def Deck.add_cards_to_top (deck : List Card) (cards : List Card) : List Card :=
  cards.reverse.foldl (fun d c => c :: d) deck

/-- `PlayerAction`: the fields set in `PlayerAction.__init__`. -/
structure PlayerAction where
  card : Option Card
  new_color : Option CardColor
  draw_card : Bool
  say_uno : Bool
deriving DecidableEq, Repr

/-- `PlayerAction.is_valid`: a draw must carry no card and no color; any
non-draw is valid as soon as it names a card. -/
def PlayerAction.is_valid (a : PlayerAction) : Bool :=
  if a.draw_card then a.card.isNone && a.new_color.isNone
  else if a.card.isSome then true
  else false

/-- Validity as the specification words it: exactly one of a draw with no
card and no color, or a play of a card where a new color accompanies the
action iff the card is wild.  Kept separate from `PlayerAction.is_valid`
(which is translated from the source) so the two can be compared. -/
def PlayerAction.is_valid_as_specified (a : PlayerAction) : Bool :=
  (a.draw_card && a.card.isNone && a.new_color.isNone) ||
    (!a.draw_card &&
      match a.card with
      | some c => a.new_color.isSome == c.is_wild
      | none => false)

/-- The `Player` fields that `play_card` can touch. -/
structure Player where
  name : String
  player_id : Int
  hand : List Card
  has_said_uno : Bool
  score : Int
deriving DecidableEq, Repr

/-- `Player.play_card(self, card, new_color)`: raises before any mutation if
the card is not in the hand; otherwise removes the first equal card from the
hand (Python `list.remove`) and returns the action. -/
def Player.play_card (p : Player) (card : Card) (new_color : Option CardColor) :
    Except String (Player × PlayerAction) :=
  if card ∈ p.hand then
    Except.ok ({ p with hand := p.hand.erase card },
               { card := some card, new_color := new_color,
                 draw_card := false, say_uno := false })
  else Except.error "Card not in hand"

/-- A blue five, used as a concrete input. -/
def blue5 : Card := ⟨CardColor.BLUE, CardLabel.FIVE⟩

/-- A blue seven, used as a concrete input. -/
def blue7 : Card := ⟨CardColor.BLUE, CardLabel.SEVEN⟩

/-- A plain wild card, used as a concrete input. -/
def wildCard : Card := ⟨CardColor.WILD, CardLabel.WILD⟩

/-- A fresh `CardEffect`, as built by `CardEffect.__init__`. -/
def freshEffect : CardEffect :=
  ⟨EffectState.NO_EFFECT, none, 0, 0, false, false⟩

/-- An effect in PENDING state with a draw count of 2. -/
def pendingDraw2 : CardEffect :=
  ⟨EffectState.PENDING, none, 2, 0, false, false⟩

/-- A fresh effect carrying a draw count of 2. -/
def freshDraw2 : CardEffect :=
  ⟨EffectState.NO_EFFECT, none, 2, 0, false, false⟩

/-- An effect in APPLIED state with draw count 3 and skip count 2. -/
def appliedDraw3 : CardEffect :=
  ⟨EffectState.APPLIED, none, 3, 2, false, false⟩

/-- A concrete player holding a blue five and a blue seven. -/
def samplePlayer : Player :=
  ⟨"p1", 0, [blue5, blue7], false, 0⟩

/-- Prepending with `add_cards_to_top` is list append: the repeated
`appendleft` over the reversed input puts the input, in order, before the
previously held cards. -/
theorem add_cards_to_top_eq_append (deck cards : List Card) :
    Deck.add_cards_to_top deck cards = cards ++ deck := by
  induction cards generalizing deck with
  | nil => rfl
  | cons a t ih =>
      have h := ih deck
      unfold Deck.add_cards_to_top at h ⊢
      rw [List.reverse_cons, List.foldl_append]
      simp only [List.foldl_cons, List.foldl_nil]
      rw [h]
      rfl

/-- The state reached by `set_pending`: PENDING from NO_EFFECT, otherwise
unchanged. -/
theorem set_pending_state (e : CardEffect) :
    e.set_pending.state =
      (if e.state = EffectState.NO_EFFECT then EffectState.PENDING else e.state) := by
  unfold CardEffect.set_pending
  split <;> rfl

/-- The state reached by `set_applied`: APPLIED from PENDING, otherwise
unchanged. -/
theorem set_applied_state (e : CardEffect) :
    e.set_applied.state =
      (if e.state = EffectState.PENDING then EffectState.APPLIED else e.state) := by
  unfold CardEffect.set_applied
  split <;> rfl

/-- The state reached by `set_resolved`: RESOLVED from APPLIED, otherwise
unchanged. -/
theorem set_resolved_state (e : CardEffect) :
    e.set_resolved.state =
      (if e.state = EffectState.APPLIED then EffectState.RESOLVED else e.state) := by
  unfold CardEffect.set_resolved
  split <;> rfl

/-- `set_pending` never touches the effect fields. -/
theorem set_pending_fields (e : CardEffect) :
    e.set_pending.color_change = e.color_change ∧
    e.set_pending.draw_count = e.draw_count ∧
    e.set_pending.skip_count = e.skip_count ∧
    e.set_pending.reverse_direction = e.reverse_direction ∧
    e.set_pending.stackable = e.stackable := by
  unfold CardEffect.set_pending
  split <;> exact ⟨rfl, rfl, rfl, rfl, rfl⟩

/-- `set_pending` never decreases the numeric state. -/
theorem set_pending_mono (e : CardEffect) : e.state.val ≤ e.set_pending.state.val := by
  unfold CardEffect.set_pending
  split
  · rename_i hh
    rw [hh]
    exact Nat.zero_le _
  · exact Nat.le_refl _

/-- `set_applied` never decreases the numeric state. -/
theorem set_applied_mono (e : CardEffect) : e.state.val ≤ e.set_applied.state.val := by
  unfold CardEffect.set_applied
  split
  · rename_i hh
    rw [hh]
    exact Nat.le_succ 1
  · exact Nat.le_refl _

/-- `set_resolved` never decreases the numeric state. -/
theorem set_resolved_mono (e : CardEffect) : e.state.val ≤ e.set_resolved.state.val := by
  unfold CardEffect.set_resolved
  split
  · rename_i hh
    rw [hh]
    exact Nat.le_succ 2
  · exact Nat.le_refl _

/-- After `set_pending` the numeric state is at least PENDING. -/
theorem one_le_set_pending (e : CardEffect) : 1 ≤ e.set_pending.state.val := by
  rcases e with ⟨s, c1, d1, k1, r1, t1⟩
  cases s <;> simp [CardEffect.set_pending, EffectState.val]

/-- A conditional `set_pending` never touches the effect fields and never
decreases the numeric state. -/
theorem pendIf_fields (c : Prop) [Decidable c] (e : CardEffect) :
    (if c then e.set_pending else e).color_change = e.color_change ∧
    (if c then e.set_pending else e).draw_count = e.draw_count ∧
    (if c then e.set_pending else e).skip_count = e.skip_count ∧
    (if c then e.set_pending else e).reverse_direction = e.reverse_direction ∧
    (if c then e.set_pending else e).stackable = e.stackable ∧
    e.state.val ≤ (if c then e.set_pending else e).state.val := by
  split
  · exact ⟨(set_pending_fields e).1, (set_pending_fields e).2.1,
      (set_pending_fields e).2.2.1, (set_pending_fields e).2.2.2.1,
      (set_pending_fields e).2.2.2.2, set_pending_mono e⟩
  · exact ⟨rfl, rfl, rfl, rfl, rfl, Nat.le_refl _⟩

/-- The draw-count setter at a natural argument: never raises, calls
`set_pending` exactly for a positive count. -/
theorem draw_count_set_nat (e : CardEffect) (x : Nat) :
    e.draw_count_set (x : Int) =
      Except.ok { (if 0 < x then e.set_pending else e) with draw_count := x } := by
  unfold CardEffect.draw_count_set
  rw [if_neg (by omega)]
  by_cases h : 0 < x
  · have hx : (0 : Int) < (x : Int) := by exact_mod_cast h
    rw [if_pos hx, if_pos h, Int.toNat_natCast]
  · have hx : ¬ ((0 : Int) < (x : Int)) := by exact_mod_cast h
    rw [if_neg hx, if_neg h, Int.toNat_natCast]

/-- The skip-count setter at a natural argument: never raises, calls
`set_pending` exactly for a positive count. -/
theorem skip_count_set_nat (e : CardEffect) (x : Nat) :
    e.skip_count_set (x : Int) =
      Except.ok { (if 0 < x then e.set_pending else e) with skip_count := x } := by
  unfold CardEffect.skip_count_set
  rw [if_neg (by omega)]
  by_cases h : 0 < x
  · have hx : (0 : Int) < (x : Int) := by exact_mod_cast h
    rw [if_pos hx, if_pos h, Int.toNat_natCast]
  · have hx : ¬ ((0 : Int) < (x : Int)) := by exact_mod_cast h
    rw [if_neg hx, if_neg h, Int.toNat_natCast]

/-- The reverse setter at `True` is `set_pending` plus the flag. -/
theorem reverse_direction_set_true (e : CardEffect) :
    e.reverse_direction_set true = { e.set_pending with reverse_direction := true } := by
  unfold CardEffect.reverse_direction_set
  rfl

/-- A conditional reverse write: fields untouched except the reverse flag,
which ORs with the condition; the numeric state never decreases. -/
theorem reverse_if_fields (r : Bool) (e : CardEffect) :
    (if r then e.reverse_direction_set true else e).color_change = e.color_change ∧
    (if r then e.reverse_direction_set true else e).draw_count = e.draw_count ∧
    (if r then e.reverse_direction_set true else e).skip_count = e.skip_count ∧
    (if r then e.reverse_direction_set true else e).reverse_direction = (e.reverse_direction || r) ∧
    (if r then e.reverse_direction_set true else e).stackable = e.stackable ∧
    e.state.val ≤ (if r then e.reverse_direction_set true else e).state.val := by
  cases r
  · exact ⟨rfl, rfl, rfl, (Bool.or_false _).symm, rfl, Nat.le_refl _⟩
  · rw [if_pos rfl, reverse_direction_set_true]
    exact ⟨(set_pending_fields e).1, (set_pending_fields e).2.1,
      (set_pending_fields e).2.2.1, (Bool.or_true _).symm,
      (set_pending_fields e).2.2.2.2, set_pending_mono e⟩

/-- A conditional stackable write: only the stackable flag changes, ORing
with the condition; the state is untouched. -/
theorem stack_if_fields (t : Bool) (e : CardEffect) :
    (if t then e.stackable_set true else e).color_change = e.color_change ∧
    (if t then e.stackable_set true else e).draw_count = e.draw_count ∧
    (if t then e.stackable_set true else e).skip_count = e.skip_count ∧
    (if t then e.stackable_set true else e).reverse_direction = e.reverse_direction ∧
    (if t then e.stackable_set true else e).stackable = (e.stackable || t) ∧
    (if t then e.stackable_set true else e).state = e.state := by
  cases t
  · exact ⟨rfl, rfl, rfl, rfl, (Bool.or_false _).symm, rfl⟩
  · rw [if_pos rfl]
    exact ⟨rfl, rfl, rfl, rfl, (Bool.or_true _).symm, rfl⟩

/-- The count-and-flag part of `combine`, run from any intermediate effect:
it always succeeds, adds the other draw and skip counts, ORs the other
reverse and stackable flags, and never decreases the state, which is at
least PENDING when the other draw count is positive. -/
theorem combine_tail (b a2 : CardEffect) :
    ∃ c : CardEffect,
      (match a2.draw_count_set ((a2.draw_count : Int) + (b.draw_count : Int)) with
       | Except.error msg => Except.error msg
       | Except.ok a3 =>
         match a3.skip_count_set ((a3.skip_count : Int) + (b.skip_count : Int)) with
         | Except.error msg => Except.error msg
         | Except.ok a4 =>
           let a5 := if b.reverse_direction then a4.reverse_direction_set true else a4
           let a6 := if b.stackable then a5.stackable_set true else a5
           Except.ok a6) = Except.ok c ∧
      c.color_change = a2.color_change ∧
      c.draw_count = a2.draw_count + b.draw_count ∧
      c.skip_count = a2.skip_count + b.skip_count ∧
      c.reverse_direction = (a2.reverse_direction || b.reverse_direction) ∧
      c.stackable = (a2.stackable || b.stackable) ∧
      a2.state.val ≤ c.state.val ∧
      (0 < b.draw_count → 1 ≤ c.state.val) := by
  have h3 := draw_count_set_nat a2 (a2.draw_count + b.draw_count)
  set A3 : CardEffect :=
    { (if 0 < a2.draw_count + b.draw_count then a2.set_pending else a2) with
      draw_count := a2.draw_count + b.draw_count } with hA3
  have h4 := skip_count_set_nat A3 (A3.skip_count + b.skip_count)
  set A4 : CardEffect :=
    { (if 0 < A3.skip_count + b.skip_count then A3.set_pending else A3) with
      skip_count := A3.skip_count + b.skip_count } with hA4
  have f3 : A3.color_change = a2.color_change ∧ A3.draw_count = a2.draw_count + b.draw_count ∧
      A3.skip_count = a2.skip_count ∧ A3.reverse_direction = a2.reverse_direction ∧
      A3.stackable = a2.stackable ∧ a2.state.val ≤ A3.state.val := by
    rw [hA3]
    exact ⟨(pendIf_fields _ a2).1, rfl, (pendIf_fields _ a2).2.2.1,
      (pendIf_fields _ a2).2.2.2.1, (pendIf_fields _ a2).2.2.2.2.1,
      (pendIf_fields _ a2).2.2.2.2.2⟩
  have hone3 : 0 < b.draw_count → 1 ≤ A3.state.val := by
    intro hbd
    rw [hA3]
    rw [if_pos (show 0 < a2.draw_count + b.draw_count by omega)]
    exact one_le_set_pending a2
  have f4 : A4.color_change = A3.color_change ∧ A4.draw_count = A3.draw_count ∧
      A4.skip_count = A3.skip_count + b.skip_count ∧ A4.reverse_direction = A3.reverse_direction ∧
      A4.stackable = A3.stackable ∧ A3.state.val ≤ A4.state.val := by
    rw [hA4]
    exact ⟨(pendIf_fields _ A3).1, (pendIf_fields _ A3).2.1, rfl,
      (pendIf_fields _ A3).2.2.2.1, (pendIf_fields _ A3).2.2.2.2.1,
      (pendIf_fields _ A3).2.2.2.2.2⟩
  have hX := reverse_if_fields b.reverse_direction A4
  have hS := stack_if_fields b.stackable
    (if b.reverse_direction then A4.reverse_direction_set true else A4)
  refine ⟨if b.stackable
          then (if b.reverse_direction then A4.reverse_direction_set true else A4).stackable_set true
          else (if b.reverse_direction then A4.reverse_direction_set true else A4),
        ?_, ?_, ?_, ?_, ?_, ?_, ?_, ?_⟩
  · rw [← Nat.cast_add, h3]
    show (match A3.skip_count_set ((A3.skip_count : Int) + (b.skip_count : Int)) with
          | Except.error msg => Except.error msg
          | Except.ok a4 =>
            let a5 := if b.reverse_direction then a4.reverse_direction_set true else a4
            let a6 := if b.stackable then a5.stackable_set true else a5
            Except.ok a6) = _
    rw [← Nat.cast_add, h4]
  · rw [hS.1, hX.1, f4.1, f3.1]
  · rw [hS.2.1, hX.2.1, f4.2.1, f3.2.1]
  · rw [hS.2.2.1, hX.2.2.1, f4.2.2.1, f3.2.2.1]
  · rw [hS.2.2.2.1, hX.2.2.2.1, f4.2.2.2.1, f3.2.2.2.1]
  · rw [hS.2.2.2.2.1, hX.2.2.2.2.1, f4.2.2.2.2.1, f3.2.2.2.2.1]
  · rw [hS.2.2.2.2.2]
    exact le_trans (le_trans f3.2.2.2.2.2 f4.2.2.2.2.2) hX.2.2.2.2.2
  · intro hbd
    rw [hS.2.2.2.2.2]
    exact le_trans (le_trans (hone3 hbd) f4.2.2.2.2.2) hX.2.2.2.2.2

/-- Combining with an effect whose pending color is the literal WILD raises
inside the color setter. -/
theorem combine_wild_error (a b : CardEffect)
    (h : b.color_change = some CardColor.WILD) :
    a.combine b = Except.error "Cannot change to WILD color" := by
  unfold CardEffect.combine
  rw [h]
  rfl

/-- Closed-form behavior of `combine` when the other color is not the
literal WILD: the merge succeeds, the color is overwritten when the other has
one, the counts add, the flags OR, the state never decreases and is at least
PENDING when the other state was not NO_EFFECT or the other draw count was
positive. -/
theorem combine_ok_of_ne_wild (a b : CardEffect)
    (h : b.color_change ≠ some CardColor.WILD) :
    ∃ c : CardEffect, a.combine b = Except.ok c ∧
      c.color_change = (match b.color_change with
                        | some x => some x
                        | none => a.color_change) ∧
      c.draw_count = a.draw_count + b.draw_count ∧
      c.skip_count = a.skip_count + b.skip_count ∧
      c.reverse_direction = (a.reverse_direction || b.reverse_direction) ∧
      c.stackable = (a.stackable || b.stackable) ∧
      a.state.val ≤ c.state.val ∧
      (b.state ≠ EffectState.NO_EFFECT → 1 ≤ c.state.val) ∧
      (0 < b.draw_count → 1 ≤ c.state.val) := by
  unfold CardEffect.combine
  have hf := pendIf_fields (b.state ≠ EffectState.NO_EFFECT) a
  cases hcb : b.color_change with
  | none =>
      obtain ⟨c, hc, p1, p2, p3, p4, p5, p6, p7⟩ :=
        combine_tail b (if b.state ≠ EffectState.NO_EFFECT then a.set_pending else a)
      refine ⟨c, ?_, ?_, ?_, ?_, ?_, ?_, ?_, ?_, ?_⟩
      · exact hc
      · exact p1.trans hf.1
      · rw [p2, hf.2.1]
      · rw [p3, hf.2.2.1]
      · rw [p4, hf.2.2.2.1]
      · rw [p5, hf.2.2.2.2.1]
      · exact le_trans hf.2.2.2.2.2 p6
      · intro hbs
        have h1 : 1 ≤ (if b.state ≠ EffectState.NO_EFFECT then a.set_pending else a).state.val := by
          rw [if_pos hbs]
          exact one_le_set_pending a
        exact le_trans h1 p6
      · exact p7
  | some x =>
      have hx : x ≠ CardColor.WILD := by
        intro hh
        apply h
        rw [hcb, hh]
      have hcs : (if b.state ≠ EffectState.NO_EFFECT then a.set_pending else a).color_change_set
            (some x) =
          Except.ok { (if b.state ≠ EffectState.NO_EFFECT then a.set_pending else a).set_pending with
                      color_change := some x } := by
        have hstep : (if b.state ≠ EffectState.NO_EFFECT then a.set_pending
              else a).color_change_set (some x) =
            if x = CardColor.WILD then Except.error "Cannot change to WILD color"
            else Except.ok { (if b.state ≠ EffectState.NO_EFFECT then a.set_pending
                              else a).set_pending with color_change := some x } := rfl
        rw [hstep, if_neg hx]
      obtain ⟨c, hc, p1, p2, p3, p4, p5, p6, p7⟩ :=
        combine_tail b
          { (if b.state ≠ EffectState.NO_EFFECT then a.set_pending else a).set_pending with
            color_change := some x }
      have hg := set_pending_fields (if b.state ≠ EffectState.NO_EFFECT then a.set_pending else a)
      refine ⟨c, ?_, ?_, ?_, ?_, ?_, ?_, ?_, ?_, ?_⟩
      · simp only [hcs]
        exact hc
      · exact p1
      · rw [p2, hg.2.1, hf.2.1]
      · rw [p3, hg.2.2.1, hf.2.2.1]
      · rw [p4, hg.2.2.2.1, hf.2.2.2.1]
      · rw [p5, hg.2.2.2.2, hf.2.2.2.2.1]
      · exact le_trans (le_trans hf.2.2.2.2.2
          (set_pending_mono (if b.state ≠ EffectState.NO_EFFECT then a.set_pending else a))) p6
      · intro hbs
        have h1 : 1 ≤ (if b.state ≠ EffectState.NO_EFFECT then a.set_pending else a).state.val := by
          rw [if_pos hbs]
          exact one_le_set_pending a
        exact le_trans (le_trans h1
          (set_pending_mono (if b.state ≠ EffectState.NO_EFFECT then a.set_pending else a))) p6
      · exact p7

/-- Claim C1: a blue five played on a blue seven while the active color is
RED satisfies none of the legality conditions of the claim — the candidate is
not wild, its color differs from the active color, its label differs from the
top label — yet `can_play_on` accepts it: the Python `or` in
`current_color or other.color` treats the falsy `RED` member like an unset
active color and falls back to the intrinsic color of the top card. -/
theorem can_play_on_red_active_color_ignored :
    blue5.is_wild = false ∧
    blue5.color ≠ CardColor.RED ∧
    blue5.label ≠ blue7.label ∧
    Card.can_play_on blue5 blue7 (some CardColor.RED) = true := by
  decide

/-- Claim C2: the clear and reset operations never terminate.  In the source
`reset_state` calls `clear_effects` and `clear_effects` calls `reset_state`,
both unconditionally; for every fuel bound and every effect the fuel-bounded
unfoldings of the two methods exhaust their fuel without ever returning. -/
theorem reset_state_clear_effects_diverge (fuel : Nat) (e : CardEffect) :
    CardEffect.reset_state_fuel fuel e = none ∧
    CardEffect.clear_effects_fuel fuel e = none := by
  induction fuel generalizing e with
  | zero => exact ⟨rfl, rfl⟩
  | succ n ih =>
      constructor
      · rw [CardEffect.reset_state_fuel]
        exact (ih _).2
      · rw [CardEffect.clear_effects_fuel]
        exact (ih _).1

/-- Claim C3: drawing from an empty deck does not raise — the empty-deck
check returns the Python `None` before the bounds checks run, both for a
positive and for a negative count; on a non-empty deck the oversized and
negative counts do raise, and a legal draw pops from the head. -/
theorem draw_empty_deck_returns_none :
    Deck.draw [] 1 = DrawResult.nothing ∧
    Deck.draw [] (-1) = DrawResult.nothing ∧
    Deck.draw [blue5] 2 = DrawResult.failure "Cannot draw more cards than the deck holds" ∧
    Deck.draw [blue5] (-1) = DrawResult.failure "Cannot draw negative number of cards" ∧
    Deck.draw [blue5] 1 = DrawResult.drawn [blue5] [] :=
  ⟨rfl, rfl, rfl, rfl, rfl⟩

/-- Claim C4: playing a wild card with chosen color RED silently loses the
color choice — `if self.is_wild and new_color:` skips the block because the
RED member is falsy — while GREEN is recorded, a literal WILD raises, and a
wild draw four with GREEN yields four cards to draw. -/
theorem play_wild_with_red_loses_color_choice :
    Card.play wildCard (some CardColor.RED) =
      Except.ok { color_change := none, draw_cards := 0, skip_turn := false, reverse := false } ∧
    Card.play wildCard (some CardColor.GREEN) =
      Except.ok { color_change := some CardColor.GREEN, draw_cards := 0,
                  skip_turn := false, reverse := false } ∧
    Card.play wildCard (some CardColor.WILD) =
      Except.error "Cannot change to WILD color" ∧
    Card.play ⟨CardColor.WILD, CardLabel.WILD_DRAW_FOUR⟩ (some CardColor.GREEN) =
      Except.ok { color_change := some CardColor.GREEN, draw_cards := 4,
                  skip_turn := false, reverse := false } :=
  ⟨rfl, rfl, rfl, rfl⟩

/-- Claim C7: `execute_draw` and `execute_skip` pay out and zero their count
exactly while APPLIED with a positive count, return 0 and change nothing in
every other state or with a zero count, and a second call right after a
paying call returns 0. -/
theorem execute_draw_execute_skip_spec (e : CardEffect) :
    (e.state = EffectState.APPLIED → 0 < e.draw_count →
      e.execute_draw = (e.draw_count, { e with draw_count := 0 })) ∧
    (e.state ≠ EffectState.APPLIED → e.execute_draw = (0, e)) ∧
    (e.draw_count = 0 → e.execute_draw = (0, e)) ∧
    (e.state = EffectState.APPLIED → 0 < e.skip_count →
      e.execute_skip = (e.skip_count, { e with skip_count := 0 })) ∧
    (e.state ≠ EffectState.APPLIED → e.execute_skip = (0, e)) ∧
    (e.skip_count = 0 → e.execute_skip = (0, e)) ∧
    (0 < (e.execute_draw).1 → ((e.execute_draw).2.execute_draw).1 = 0) ∧
    (0 < (e.execute_skip).1 → ((e.execute_skip).2.execute_skip).1 = 0) := by
  refine ⟨?_, ?_, ?_, ?_, ?_, ?_, ?_, ?_⟩
  · intro h1 h2
    rw [CardEffect.execute_draw, if_pos ⟨h1, h2⟩]
  · intro h1
    rw [CardEffect.execute_draw, if_neg (by tauto)]
  · intro h1
    rw [CardEffect.execute_draw, if_neg (by rintro ⟨-, hlt⟩; omega)]
  · intro h1 h2
    rw [CardEffect.execute_skip, if_pos ⟨h1, h2⟩]
  · intro h1
    rw [CardEffect.execute_skip, if_neg (by tauto)]
  · intro h1
    rw [CardEffect.execute_skip, if_neg (by rintro ⟨-, hlt⟩; omega)]
  · intro h1
    by_cases hc : e.state = EffectState.APPLIED ∧ 0 < e.draw_count
    · simp [CardEffect.execute_draw, hc]
    · simp [CardEffect.execute_draw, hc] at h1
  · intro h1
    by_cases hc : e.state = EffectState.APPLIED ∧ 0 < e.skip_count
    · simp [CardEffect.execute_skip, hc]
    · simp [CardEffect.execute_skip, hc] at h1

/-- Witness for claim C7 at concrete effects: an APPLIED effect with draw 3
and skip 2 pays out once and a fresh effect pays nothing. -/
theorem execute_draw_execute_skip_spec_witness :
    appliedDraw3.execute_draw = (appliedDraw3.draw_count, { appliedDraw3 with draw_count := 0 }) ∧
    freshEffect.execute_draw = (0, freshEffect) ∧
    appliedDraw3.execute_skip = (appliedDraw3.skip_count, { appliedDraw3 with skip_count := 0 }) ∧
    freshEffect.execute_skip = (0, freshEffect) ∧
    ((appliedDraw3.execute_draw).2.execute_draw).1 = 0 ∧
    ((appliedDraw3.execute_skip).2.execute_skip).1 = 0 :=
  ⟨(execute_draw_execute_skip_spec appliedDraw3).1 rfl (by decide),
   (execute_draw_execute_skip_spec freshEffect).2.1 (by decide),
   (execute_draw_execute_skip_spec appliedDraw3).2.2.2.1 rfl (by decide),
   (execute_draw_execute_skip_spec freshEffect).2.2.2.2.1 (by decide),
   (execute_draw_execute_skip_spec appliedDraw3).2.2.2.2.2.2.1 (by decide),
   (execute_draw_execute_skip_spec appliedDraw3).2.2.2.2.2.2.2 (by decide)⟩

/-- Claim C9 counterexample: an action that names the non-wild blue five and
also carries a new color is accepted by `is_valid`, although the specified
predicate — a color choice accompanies only wild plays — rejects it. -/
theorem is_valid_accepts_color_on_non_wild :
    PlayerAction.is_valid ⟨some blue5, some CardColor.GREEN, false, false⟩ = true ∧
    PlayerAction.is_valid_as_specified ⟨some blue5, some CardColor.GREEN, false, false⟩ = false := by
  decide

/-- Claim C9 amended: `is_valid` is true exactly when the action is a draw
with no card and no color, or a non-draw naming a card; for a play neither
the new color nor the wildness of the card is checked. -/
theorem is_valid_characterization (a : PlayerAction) :
    a.is_valid =
      ((a.draw_card && a.card.isNone && a.new_color.isNone) ||
        (!a.draw_card && a.card.isSome)) := by
  rcases a with ⟨c, nc, d, u⟩
  cases d <;> cases c <;> cases nc <;> rfl

/-- Claim C5: the effect state machine only advances along NO_EFFECT to
PENDING to APPLIED to RESOLVED.  Assigning a truthy component — a non-None
non-WILD color, a positive draw or skip count, a true reverse flag — moves
NO_EFFECT to PENDING and leaves every other state unchanged; `set_applied`
changes the state only from PENDING and `set_resolved` only from APPLIED;
and none of the setters, transition calls, `execute_draw`, `execute_skip` or
`combine` ever decreases the numeric state. -/
theorem effect_state_machine_spec (e : CardEffect) (col : CardColor) (n : Int)
    (oc : Option CardColor) (r : Bool) (b : CardEffect) :
    (col ≠ CardColor.WILD →
      exceptState (e.color_change_set (some col)) =
        some (if e.state = EffectState.NO_EFFECT then EffectState.PENDING else e.state)) ∧
    (0 < n →
      exceptState (e.draw_count_set n) =
        some (if e.state = EffectState.NO_EFFECT then EffectState.PENDING else e.state)) ∧
    (0 < n →
      exceptState (e.skip_count_set n) =
        some (if e.state = EffectState.NO_EFFECT then EffectState.PENDING else e.state)) ∧
    (e.reverse_direction_set true).state =
      (if e.state = EffectState.NO_EFFECT then EffectState.PENDING else e.state) ∧
    e.set_applied.state =
      (if e.state = EffectState.PENDING then EffectState.APPLIED else e.state) ∧
    e.set_resolved.state =
      (if e.state = EffectState.APPLIED then EffectState.RESOLVED else e.state) ∧
    e.state.val ≤ e.set_pending.state.val ∧
    e.state.val ≤ e.set_applied.state.val ∧
    e.state.val ≤ e.set_resolved.state.val ∧
    e.state.val ≤ exceptStateVal (e.color_change_set oc) e.state.val ∧
    e.state.val ≤ exceptStateVal (e.draw_count_set n) e.state.val ∧
    e.state.val ≤ exceptStateVal (e.skip_count_set n) e.state.val ∧
    e.state.val ≤ (e.reverse_direction_set r).state.val ∧
    (e.stackable_set r).state = e.state ∧
    (e.execute_draw).2.state = e.state ∧
    (e.execute_skip).2.state = e.state ∧
    e.state.val ≤ exceptStateVal (e.combine b) e.state.val := by
  refine ⟨?_, ?_, ?_, ?_, ?_, ?_, ?_, ?_, ?_, ?_, ?_, ?_, ?_, ?_, ?_, ?_, ?_⟩
  · intro hcol
    have hstep : e.color_change_set (some col) =
        if col = CardColor.WILD then Except.error "Cannot change to WILD color"
        else Except.ok { e.set_pending with color_change := some col } := rfl
    rw [hstep, if_neg hcol]
    show some e.set_pending.state = _
    rw [set_pending_state]
  · intro hn
    unfold CardEffect.draw_count_set
    rw [if_neg (by omega), if_pos hn]
    show some e.set_pending.state = _
    rw [set_pending_state]
  · intro hn
    unfold CardEffect.skip_count_set
    rw [if_neg (by omega), if_pos hn]
    show some e.set_pending.state = _
    rw [set_pending_state]
  · exact set_pending_state e
  · exact set_applied_state e
  · exact set_resolved_state e
  · exact set_pending_mono e
  · exact set_applied_mono e
  · exact set_resolved_mono e
  · cases oc with
    | none => exact Nat.le_refl _
    | some c =>
        have hstep : e.color_change_set (some c) =
            if c = CardColor.WILD then Except.error "Cannot change to WILD color"
            else Except.ok { e.set_pending with color_change := some c } := rfl
        by_cases hc2 : c = CardColor.WILD
        · rw [hstep, if_pos hc2]
          exact Nat.le_refl _
        · rw [hstep, if_neg hc2]
          exact set_pending_mono e
  · by_cases hn0 : n < 0
    · unfold CardEffect.draw_count_set
      rw [if_pos hn0]
      exact Nat.le_refl _
    · by_cases hp : 0 < n
      · unfold CardEffect.draw_count_set
        rw [if_neg hn0, if_pos hp]
        exact set_pending_mono e
      · unfold CardEffect.draw_count_set
        rw [if_neg hn0, if_neg hp]
        exact Nat.le_refl _
  · by_cases hn0 : n < 0
    · unfold CardEffect.skip_count_set
      rw [if_pos hn0]
      exact Nat.le_refl _
    · by_cases hp : 0 < n
      · unfold CardEffect.skip_count_set
        rw [if_neg hn0, if_pos hp]
        exact set_pending_mono e
      · unfold CardEffect.skip_count_set
        rw [if_neg hn0, if_neg hp]
        exact Nat.le_refl _
  · cases r
    · exact Nat.le_refl _
    · exact set_pending_mono e
  · rfl
  · unfold CardEffect.execute_draw
    split <;> rfl
  · unfold CardEffect.execute_skip
    split <;> rfl
  · by_cases hbw : b.color_change = some CardColor.WILD
    · rw [combine_wild_error e b hbw]
      exact Nat.le_refl _
    · obtain ⟨c, hcc, -, -, -, -, -, hmono, -, -⟩ := combine_ok_of_ne_wild e b hbw
      rw [hcc]
      exact hmono

/-- Claim C6: `combine` merges two effects with last-writer-wins color,
additive draw and skip counts, ORed reverse and stackable flags, a never
decreasing state that is at least PENDING when the other state was not
NO_EFFECT; in particular two draw-2 effects combine to draw 4 with state at
least PENDING. -/
theorem combine_spec (a b : CardEffect) (h : b.color_change ≠ some CardColor.WILD) :
    isOkEffect (a.combine b) = true ∧
    okField (a.combine b) CardEffect.color_change none =
      (match b.color_change with | some x => some x | none => a.color_change) ∧
    okField (a.combine b) CardEffect.draw_count 0 = a.draw_count + b.draw_count ∧
    okField (a.combine b) CardEffect.skip_count 0 = a.skip_count + b.skip_count ∧
    okField (a.combine b) CardEffect.reverse_direction false =
      (a.reverse_direction || b.reverse_direction) ∧
    okField (a.combine b) CardEffect.stackable false = (a.stackable || b.stackable) ∧
    a.state.val ≤ okField (a.combine b) CardEffect.stateVal a.state.val ∧
    (b.state ≠ EffectState.NO_EFFECT → 1 ≤ okField (a.combine b) CardEffect.stateVal 0) ∧
    (0 < b.draw_count → 1 ≤ okField (a.combine b) CardEffect.stateVal 0) := by
  obtain ⟨c, hc, p1, p2, p3, p4, p5, p6, p7, p8⟩ := combine_ok_of_ne_wild a b h
  rw [hc]
  exact ⟨rfl, p1, p2, p3, p4, p5, p6, p7, p8⟩

/-- Witness for claim C6: a fresh draw-2 effect combined with a PENDING
draw-2 effect succeeds with draw count 4 and state at least PENDING. -/
theorem combine_spec_witness :
    isOkEffect (freshDraw2.combine pendingDraw2) = true ∧
    okField (freshDraw2.combine pendingDraw2) CardEffect.color_change none = none ∧
    okField (freshDraw2.combine pendingDraw2) CardEffect.draw_count 0 = 4 ∧
    okField (freshDraw2.combine pendingDraw2) CardEffect.skip_count 0 = 0 ∧
    okField (freshDraw2.combine pendingDraw2) CardEffect.reverse_direction false = false ∧
    okField (freshDraw2.combine pendingDraw2) CardEffect.stackable false = false ∧
    freshDraw2.state.val ≤
      okField (freshDraw2.combine pendingDraw2) CardEffect.stateVal freshDraw2.state.val ∧
    1 ≤ okField (freshDraw2.combine pendingDraw2) CardEffect.stateVal 0 := by
  have hspec := combine_spec freshDraw2 pendingDraw2 (by decide)
  exact ⟨hspec.1, hspec.2.1, hspec.2.2.1, hspec.2.2.2.1, hspec.2.2.2.2.1,
    hspec.2.2.2.2.2.1, hspec.2.2.2.2.2.2.1, hspec.2.2.2.2.2.2.2.1 (by decide)⟩

/-- Claim C8: `play_card` raises a card-not-held error before any mutation
when no equal card is in the hand; with the card present it removes exactly
one matching card — hand length drops by one, the multiplicity of the played
card drops by one, every other multiplicity is unchanged — touches neither
the score nor the UNO flag, and returns the action carrying the card and the
optional new color. -/
theorem play_card_spec (p : Player) (card c : Card) (new_color : Option CardColor) :
    (card ∉ p.hand → p.play_card card new_color = Except.error "Card not in hand") ∧
    (card ∈ p.hand →
      p.play_card card new_color =
        Except.ok ({ p with hand := p.hand.erase card },
                   { card := some card, new_color := new_color,
                     draw_card := false, say_uno := false })) ∧
    (card ∈ p.hand → (p.hand.erase card).length + 1 = p.hand.length) ∧
    (card ∈ p.hand → (p.hand.erase card).count card + 1 = p.hand.count card) ∧
    (c ≠ card → (p.hand.erase card).count c = p.hand.count c) := by
  refine ⟨?_, ?_, ?_, ?_, ?_⟩
  · intro hm
    unfold Player.play_card
    rw [if_neg hm]
  · intro hm
    unfold Player.play_card
    rw [if_pos hm]
  · intro hm
    rw [List.length_erase_of_mem hm]
    have := List.length_pos_of_mem hm
    omega
  · intro hm
    rw [List.count_erase_self]
    have : 0 < p.hand.count card := List.count_pos_iff.mpr hm
    omega
  · intro hne
    exact List.count_erase_of_ne hne p.hand

/-- Witness for claim C8 on a concrete player holding a blue five and a blue
seven: playing a card not held raises, playing the blue five removes exactly
it and returns the action. -/
theorem play_card_spec_witness :
    samplePlayer.play_card wildCard none = Except.error "Card not in hand" ∧
    samplePlayer.play_card blue5 none =
      Except.ok ({ samplePlayer with hand := samplePlayer.hand.erase blue5 },
                 { card := some blue5, new_color := none,
                   draw_card := false, say_uno := false }) ∧
    (samplePlayer.hand.erase blue5).length + 1 = samplePlayer.hand.length ∧
    (samplePlayer.hand.erase blue5).count blue5 + 1 = samplePlayer.hand.count blue5 ∧
    (samplePlayer.hand.erase blue5).count blue7 = samplePlayer.hand.count blue7 :=
  ⟨(play_card_spec samplePlayer wildCard blue7 none).1 (by decide),
   (play_card_spec samplePlayer blue5 blue7 none).2.1 (by decide),
   (play_card_spec samplePlayer blue5 blue7 none).2.2.1 (by decide),
   (play_card_spec samplePlayer blue5 blue7 none).2.2.2.1 (by decide),
   (play_card_spec samplePlayer blue5 blue7 none).2.2.2.2 (by decide)⟩

/-- Claim C10: after `add_cards_to_top`, drawing as many cards as were added
returns exactly the added list in its original order, with the first listed
card drawn first and the previously held cards left unchanged below. -/
theorem add_cards_to_top_then_draw (deck cards : List Card) (h : cards ≠ []) :
    Deck.draw (Deck.add_cards_to_top deck cards) (cards.length : Int) =
      DrawResult.drawn cards deck := by
  rw [add_cards_to_top_eq_append]
  have hne : ¬ ((cards ++ deck).length = 0) := by
    intro h0
    rw [List.length_append] at h0
    exact h (List.length_eq_zero.mp (by omega))
  have hnn : ¬ ((cards.length : Int) < 0) := by
    exact not_lt.mpr (Int.natCast_nonneg _)
  have hle : ¬ (((cards ++ deck).length : Int) < (cards.length : Int)) := by
    rw [List.length_append]
    push_cast
    omega
  rw [Deck.draw, if_neg hne, if_neg hnn, if_neg hle]
  rw [Int.toNat_natCast, List.take_left, List.drop_left]

/-- Witness for claim C10: pushing a blue five then a wild on top of a deck
holding a blue seven makes the next two draws the blue five and the wild. -/
theorem add_cards_to_top_then_draw_witness :
    Deck.draw (Deck.add_cards_to_top [blue7] [blue5, wildCard]) 2 =
      DrawResult.drawn [blue5, wildCard] [blue7] :=
  add_cards_to_top_then_draw [blue7] [blue5, wildCard] (by decide)

end Uno
